import Mathlib

/-!
Verification of the crypto trend-analysis engine.

Shallow embedding of `src/analyzer.py` (class `CryptoTrendAnalyzer`),
`config/config.py` (class `Config`) and the alert ledger of `main.py`
(class `CryptoRealtimeAgent`).  Prices, volumes and indicator values are
modelled as rationals; a pandas `NaN` entry of a derived series is
modelled as `none : Option ℚ`.  Snapshot dictionaries become structures
whose optional keys are `Option`-typed fields.
-/

namespace CoinAnalysis

/-! ## Configuration (config/config.py, class Config) -/

def SYMBOLS_TO_MONITOR : List String := ["BTCUSDT", "ETHUSDT", "SOLUSDT"]

def TIMEFRAMES_default : String := "1d"

def TIMEFRAMES_available : List String :=
  ["1m", "3m", "5m", "15m", "30m",
   "1h", "2h", "4h", "6h", "8h", "12h",
   "1d", "3d",
   "1w", "1M"]

def ANALYSIS_default_days : Int := 30

def ANALYSIS_max_days : Int := 365

def MA_periods : List Nat := [5, 10, 20, 50, 100, 200]

def MA_default_period : Nat := 20

def RSI_period : Nat := 14

def Bollinger_period : Nat := 20

def Bollinger_std_dev : ℚ := 2

def TREND_min_points : Nat := 5

def breakout_threshold : ℚ := 1 / 50

/-- Embeds `Config.get_timeframe`: membership test in the available set, else the
default.  (`None` is falsy in Python, hence the `Option`.) -/
def get_timeframe (timeframe : Option String) : String :=
  match timeframe with
  | some t => if t ∈ TIMEFRAMES_available then t else TIMEFRAMES_default
  | none => TIMEFRAMES_default

/-- Embeds `Config.is_valid_symbol`. -/
def is_valid_symbol (symbol : String) : Bool :=
  symbol ∈ SYMBOLS_TO_MONITOR

/-! ## Data model

One OHLCV row of the fetched dataframe.  The `open` and `timestamp`
columns are never read by any analysis routine and are omitted from the
embedding; the remaining columns are carried verbatim. -/

structure Candle where
  high : ℚ
  low : ℚ
  close : ℚ
  volume : ℚ
  deriving DecidableEq

instance : Inhabited Candle := ⟨⟨0, 0, 0, 0⟩⟩

/-! ## Rolling-window machinery (pandas `Series.rolling(window=p)`)

`rolling(window=p)` (with the default `min_periods = p`) produces at
index `i` the statistic of the window `xs[i+1-p .. i]` when `p ≤ i+1`,
and `NaN` otherwise. -/

/-- The window of length `p` ending at index `i` (pandas rolling window). -/
def windowEnd {α : Type} (p : Nat) (xs : List α) (i : Nat) : List α :=
  (xs.take (i + 1)).drop (i + 1 - p)

/-- Generic rolling statistic: apply `f` to each full window, `none` before
the window fills. -/
def rollingApply {α : Type} (p : Nat) (f : List α → ℚ) (xs : List α) : List (Option ℚ) :=
  (List.range xs.length).map fun i =>
    if p ≤ i + 1 then some (f (windowEnd p xs i)) else none

/-- Mean of a window (`rolling(...).mean()`). -/
def windowMean (p : Nat) (w : List ℚ) : ℚ := w.sum / (p : ℚ)

def rollingMean (p : Nat) (xs : List ℚ) : List (Option ℚ) :=
  rollingApply p (windowMean p) xs

/-- Minimum of a nonempty window (`rolling(...).min()`). -/
def listMin : List ℚ → ℚ
  | [] => 0
  | a :: t => t.foldl min a

/-- Maximum of a nonempty window (`rolling(...).max()`). -/
def listMax : List ℚ → ℚ
  | [] => 0
  | a :: t => t.foldl max a

def rollingMin (p : Nat) (xs : List ℚ) : List (Option ℚ) :=
  rollingApply p listMin xs

def rollingMax (p : Nat) (xs : List ℚ) : List (Option ℚ) :=
  rollingApply p listMax xs

/-! ## Support / resistance (`_calculate_support_resistance`)

`support = df['low'].rolling(window=period).min()`,
`resistance = df['high'].rolling(window=period).max()` with
`period = config.INDICATORS['MA']['default_period']`. -/

def calculate_support_resistance (df : List Candle) :
    List (Option ℚ) × List (Option ℚ) :=
  (rollingMin MA_default_period (df.map (·.low)),
   rollingMax MA_default_period (df.map (·.high)))

/-! ### Window lemmas -/

theorem windowEnd_map {α β : Type} (g : α → β) (p : Nat) (xs : List α) (i : Nat) :
    windowEnd p (xs.map g) i = (windowEnd p xs i).map g := by
  simp [windowEnd, List.map_take, List.map_drop]

theorem rollingApply_getElem {α : Type} (p : Nat) (f : List α → ℚ) (xs : List α)
    (i : Nat) (hi : i < xs.length) :
    (rollingApply p f xs)[i]? =
      some (if p ≤ i + 1 then some (f (windowEnd p xs i)) else none) := by
  simp [rollingApply, List.getElem?_map, List.getElem?_range, hi]

theorem rollingApply_length {α : Type} (p : Nat) (f : List α → ℚ) (xs : List α) :
    (rollingApply p f xs).length = xs.length := by
  simp [rollingApply]

theorem windowEnd_length {α : Type} (p : Nat) (xs : List α) (i : Nat)
    (hp : p ≤ i + 1) (hi : i < xs.length) :
    (windowEnd p xs i).length = p := by
  simp [windowEnd]
  omega

theorem windowEnd_sublist {α : Type} (p : Nat) (xs : List α) (i : Nat) :
    ∀ x ∈ windowEnd p xs i, x ∈ xs := by
  intro x hx
  have h1 : x ∈ xs.take (i + 1) := List.mem_of_mem_drop hx
  exact List.mem_of_mem_take h1

/-- Folded minimum is a lower bound on every element. -/
theorem foldl_min_le (t : List ℚ) : ∀ (a x : ℚ), x ∈ a :: t → t.foldl min a ≤ x := by
  induction t with
  | nil => intro a x hx; simp at hx; simp [hx]
  | cons b t ih =>
    intro a x hx
    rcases List.mem_cons.mp hx with h | h
    · subst h
      calc (b :: t).foldl min x = t.foldl min (min x b) := rfl
        _ ≤ min x b := ih _ _ (List.mem_cons_self _ _)
        _ ≤ x := min_le_left _ _
    · rcases List.mem_cons.mp h with h' | h'
      · subst h'
        calc t.foldl min (min a x) ≤ min a x := ih _ _ (List.mem_cons_self _ _)
          _ ≤ x := min_le_right _ _
      · exact ih (min a b) x (List.mem_cons_of_mem _ h')

/-- Folded maximum is an upper bound on every element. -/
theorem le_foldl_max (t : List ℚ) : ∀ (a x : ℚ), x ∈ a :: t → x ≤ t.foldl max a := by
  induction t with
  | nil => intro a x hx; simp at hx; simp [hx]
  | cons b t ih =>
    intro a x hx
    rcases List.mem_cons.mp hx with h | h
    · subst h
      calc x ≤ max x b := le_max_left _ _
        _ ≤ t.foldl max (max x b) := ih _ _ (List.mem_cons_self _ _)
        _ = (b :: t).foldl max x := rfl
    · rcases List.mem_cons.mp h with h' | h'
      · subst h'
        calc x ≤ max a x := le_max_right _ _
          _ ≤ t.foldl max (max a x) := ih _ _ (List.mem_cons_self _ _)
      · exact ih (max a b) x (List.mem_cons_of_mem _ h')

theorem listMin_le (w : List ℚ) (x : ℚ) (hx : x ∈ w) : listMin w ≤ x := by
  cases w with
  | nil => cases hx
  | cons a t => exact foldl_min_le t a x hx

theorem le_listMax (w : List ℚ) (x : ℚ) (hx : x ∈ w) : x ≤ listMax w := by
  cases w with
  | nil => cases hx
  | cons a t => exact le_foldl_max t a x hx

/-- C10 helper: an element of a full window exists. -/
theorem windowEnd_ne_nil {α : Type} (p : Nat) (xs : List α) (i : Nat)
    (hp0 : 0 < p) (hp : p ≤ i + 1) (hi : i < xs.length) :
    windowEnd p xs i ≠ [] := by
  intro h
  have := windowEnd_length p xs i hp hi
  rw [h] at this
  simp at this
  omega

/-- C10: where both are defined, the rolling-min support never exceeds the
rolling-max resistance, provided each candle has `low ≤ high`. -/
theorem support_le_resistance (df : List Candle)
    (hlh : ∀ c ∈ df, c.low ≤ c.high) (i : Nat) (s r : ℚ)
    (hs : (calculate_support_resistance df).1[i]? = some (some s))
    (hr : (calculate_support_resistance df).2[i]? = some (some r)) :
    s ≤ r := by
  have hi : i < df.length := by
    by_contra hcon
    push_neg at hcon
    have hlen : (calculate_support_resistance df).1.length ≤ i := by
      simpa [calculate_support_resistance, rollingMin, rollingApply_length]
        using hcon
    rw [List.getElem?_eq_none hlen] at hs
    cases hs
  have hi' : i < (df.map (·.low)).length := by simpa using hi
  have hi'' : i < (df.map (·.high)).length := by simpa using hi
  have hs' := hs
  have hr' := hr
  rw [show (calculate_support_resistance df).1
        = rollingApply MA_default_period listMin (df.map (·.low)) from rfl,
      rollingApply_getElem _ _ _ i hi'] at hs'
  rw [show (calculate_support_resistance df).2
        = rollingApply MA_default_period listMax (df.map (·.high)) from rfl,
      rollingApply_getElem _ _ _ i hi''] at hr'
  by_cases hp : MA_default_period ≤ i + 1
  · rw [if_pos hp] at hs' hr'
    have hsv : listMin (windowEnd MA_default_period (df.map (·.low)) i) = s :=
      Option.some.inj (Option.some.inj hs')
    have hrv : listMax (windowEnd MA_default_period (df.map (·.high)) i) = r :=
      Option.some.inj (Option.some.inj hr')
    have hWne : windowEnd MA_default_period df i ≠ [] :=
      windowEnd_ne_nil _ _ _ (by norm_num [MA_default_period]) hp hi
    obtain ⟨c, hc⟩ := List.exists_mem_of_ne_nil _ hWne
    have hlow : windowEnd MA_default_period (df.map (·.low)) i
        = (windowEnd MA_default_period df i).map (·.low) := windowEnd_map _ _ _ _
    have hhigh : windowEnd MA_default_period (df.map (·.high)) i
        = (windowEnd MA_default_period df i).map (·.high) := windowEnd_map _ _ _ _
    have h1 : s ≤ c.low := by
      rw [← hsv, hlow]
      exact listMin_le _ _ (List.mem_map_of_mem _ hc)
    have h2 : c.high ≤ r := by
      rw [← hrv, hhigh]
      exact le_listMax _ _ (List.mem_map_of_mem _ hc)
    have h3 : c.low ≤ c.high := hlh c (windowEnd_sublist _ _ _ _ hc)
    linarith
  · rw [if_neg hp] at hs'
    cases Option.some.inj hs'

/-! ## Trend line (`_calculate_trend_line`)

`np.polyfit(x, y, 1)` is the least-squares linear fit; its slope and
intercept are embedded by their closed form over `x = 0, 1, ..., n-1`.
For fewer than `TREND['min_points']` points the whole column is `NaN`. -/

def sumIdx (n : Nat) : ℚ := ((List.range n).map fun i => (i : ℚ)).sum

def sumIdxSq (n : Nat) : ℚ := ((List.range n).map fun i => (i : ℚ) ^ 2).sum

def calculate_trend_line (prices : List ℚ) : List (Option ℚ) :=
  if prices.length < TREND_min_points then
    List.replicate prices.length none
  else
    let n : ℚ := prices.length
    let sx := sumIdx prices.length
    let sxx := sumIdxSq prices.length
    let sy := prices.sum
    let sxy := (prices.enum.map fun p => (p.1 : ℚ) * p.2).sum
    let slope := (n * sxy - sx * sy) / (n * sxx - sx * sx)
    let intercept := (sy - slope * sx) / n
    (List.range prices.length).map fun (i : Nat) => some (slope * (i : ℚ) + intercept)

/-! ## Bollinger bands -/

/-- Sample variance (`ddof = 1`) of a window of `p` entries.  The source
multiplies the standard deviation — the square root of this quantity — by
the band width; the square root is irrational over ℚ, so the embedding
carries the variance.  No claim inspects band magnitudes; definedness,
alignment and offset signs are unchanged. -/
def windowVar (p : Nat) (w : List ℚ) : ℚ :=
  let m := w.sum / (p : ℚ)
  ((w.map fun x => (x - m) ^ 2).sum) / ((p : ℚ) - 1)

def rollingVar (p : Nat) (xs : List ℚ) : List (Option ℚ) :=
  rollingApply p (windowVar p) xs

/-- Pointwise combination of two aligned option columns (`NaN` spreads). -/
def zipOption (f : ℚ → ℚ → ℚ) (a b : List (Option ℚ)) : List (Option ℚ) :=
  List.zipWith
    (fun x y =>
      match x, y with
      | some u, some v => some (f u v)
      | _, _ => none)
    a b

/-! ## RSI -/

/-- Embeds `close.diff()`: first entry `NaN`, then first differences. -/
def diffs (xs : List ℚ) : List (Option ℚ) :=
  match xs with
  | [] => []
  | _ :: t => none :: List.zipWith (fun b a => some (b - a)) t xs

/-- Embeds `delta.where(delta > 0, 0)`: the head `NaN` fails the comparison and
is replaced by `0`, as is every non-positive move. -/
def gains (xs : List ℚ) : List ℚ :=
  (diffs xs).map fun d =>
    match d with
    | some v => if 0 < v then v else 0
    | none => 0

/-- Embeds `(-delta.where(delta < 0, 0))`. -/
def losses (xs : List ℚ) : List ℚ :=
  (diffs xs).map fun d =>
    match d with
    | some v => if v < 0 then -v else 0
    | none => 0

/-- IEEE evaluation of `100 - 100 / (1 + g / l)` on the rolling averages
`g, l ≥ 0`: positive `l` gives the finite formula; `l = 0 < g` makes
`g / l = +∞` and the expression collapses to exactly `100`; `l = 0 = g`
gives `0/0 = NaN`, which propagates (modelled as `none`). -/
def rsiOfAvg (g l : ℚ) : Option ℚ :=
  if l = 0 then (if g = 0 then none else some 100)
  else some (100 - 100 / (1 + g / l))

def rsi_series (closes : List ℚ) : List (Option ℚ) :=
  List.zipWith
    (fun g? l? =>
      match g?, l? with
      | some g, some l => rsiOfAvg g l
      | _, _ => none)
    (rollingMean RSI_period (gains closes))
    (rollingMean RSI_period (losses closes))

/-! ## Breakout detection (`_detect_trend_breaks`) -/

/-- Mask `close > resistance.shift(1) * (1 + θ)  AND  close.shift(1) <=
resistance.shift(1)`; any comparison with `NaN` (a shifted-out bar or an
unfilled window) is false. -/
def up_break (close : List ℚ) (resistance : List (Option ℚ)) (t : Nat) : Bool :=
  match t with
  | 0 => false
  | Nat.succ t' =>
    match resistance.getD t' none with
    | some r =>
      decide (close.getD (t' + 1) 0 > r * (1 + breakout_threshold))
        && decide (close.getD t' 0 ≤ r)
    | none => false

/-- Mask `close < support.shift(1) * (1 - θ)  AND  close.shift(1) >=
support.shift(1)`. -/
def down_break (close : List ℚ) (support : List (Option ℚ)) (t : Nat) : Bool :=
  match t with
  | 0 => false
  | Nat.succ t' =>
    match support.getD t' none with
    | some s =>
      decide (close.getD (t' + 1) 0 < s * (1 - breakout_threshold))
        && decide (close.getD t' 0 ≥ s)
    | none => false

/-- Embeds `_detect_trend_breaks`: the column is seeded `NaN`, positions of the
up mask are set to `1`, then positions of the down mask to `-1` — so a
position in both masks ends up `-1`. -/
def detect_trend_breaks (close : List ℚ) (support resistance : List (Option ℚ)) :
    List (Option ℚ) :=
  (List.range close.length).map fun t =>
    if down_break close support t then some (-1)
    else if up_break close resistance t then some 1
    else none

/-! ## The indicator frame (`calculate_technical_indicators`) -/

structure IndicatorSet where
  ma : List (List (Option ℚ))
  trend_line : List (Option ℚ)
  support : List (Option ℚ)
  resistance : List (Option ℚ)
  BB_middle : List (Option ℚ)
  BB_upper : List (Option ℚ)
  BB_lower : List (Option ℚ)
  RSI : List (Option ℚ)
  trend_break : List (Option ℚ)

def calculate_technical_indicators (df : List Candle) : IndicatorSet :=
  let closes := df.map (·.close)
  let sr := calculate_support_resistance df
  let middle := rollingMean Bollinger_period closes
  let var := rollingVar Bollinger_period closes
  { ma := MA_periods.map fun p => rollingMean p closes
    trend_line := calculate_trend_line closes
    support := sr.1
    resistance := sr.2
    BB_middle := middle
    BB_upper := zipOption (fun m v => m + v * Bollinger_std_dev) middle var
    BB_lower := zipOption (fun m v => m - v * Bollinger_std_dev) middle var
    RSI := rsi_series closes
    trend_break := detect_trend_breaks closes sr.1 sr.2 }

/-! ## Fake breakout (`_check_fake_breakout`) -/

/-- Looks at the last three candles and the support/resistance values
three bars back (`iloc[-3]`, the values at the first of the three).  A
`NaN` reference makes every comparison of its branch false. -/
def check_fake_breakout (df : List Candle) (support resistance : List (Option ℚ)) :
    Bool :=
  if df.length < 3 then false
  else
    let n := df.length
    let bar0 := df.getD (n - 3) default
    let bar1 := df.getD (n - 2) default
    let bar2 := df.getD (n - 1) default
    let upFake :=
      match resistance.getD (n - 3) none with
      | some r =>
        decide (bar0.high > r) && decide (bar1.close > r) && decide (bar2.close < r)
      | none => false
    let downFake :=
      match support.getD (n - 3) none with
      | some s =>
        decide (bar0.low < s) && decide (bar1.close < s) && decide (bar2.close > s)
      | none => false
    upFake || downFake

/-! ## Criticality classifier (`_is_critical_moment`) -/

/-- Clause 1 (`if trend_line:` then the deviation test).  A `NaN` value is
truthy in Python but every subsequent comparison against it is false; a
literal `0.0` is falsy and skips the test.  Both give a false clause. -/
def trend_break_clause (current_price : ℚ) (trend_line : Option ℚ) : Bool :=
  match trend_line with
  | some t =>
    if t = 0 then false
    else decide (|current_price - t| / t > breakout_threshold)
  | none => false

/-- Clause 2 (`if support and resistance:` then the 2 % range buffer).
`NaN` in either bound makes the comparisons false; a literal `0.0` bound
is falsy and skips the clause. -/
def support_resistance_clause (current_price : ℚ) (support resistance : Option ℚ) :
    Bool :=
  match support, resistance with
  | some s, some r =>
    if s = 0 ∨ r = 0 then false
    else
      decide (|current_price - s| < (r - s) * (2 / 100))
        || decide (|current_price - r| < (r - s) * (2 / 100))
  | _, _ => false

/-- Clause 3 (`if rsi is not None:`); a `NaN` RSI fails both tests. -/
def rsi_extreme_clause (rsi : Option ℚ) : Bool :=
  match rsi with
  | some x => decide (x ≥ 70) || decide (x ≤ 30)
  | none => false

/-- Clause 4: current volume above twice the 20-period rolling average.
An empty volume column is skipped, and with fewer than 20 bars the
average is `NaN`, failing the comparison. -/
def volume_spike_clause (volumes : List ℚ) : Bool :=
  match volumes.getLast? with
  | none => false
  | some current =>
    match (rollingMean 20 volumes).getLast? with
    | some (some avg) => decide (current > avg * 2)
    | _ => false

/-- Embeds `_is_critical_moment(df, current_price, trend_line, support,
resistance, rsi)`: the frame argument is its candle rows plus the
support/resistance columns (the only columns the body reads). -/
def is_critical_moment (df : List Candle) (support_col resistance_col : List (Option ℚ))
    (current_price : ℚ) (trend_line support resistance rsi : Option ℚ) : Bool :=
  trend_break_clause current_price trend_line
    || support_resistance_clause current_price support resistance
    || rsi_extreme_clause rsi
    || volume_spike_clause (df.map (·.volume))
    || check_fake_breakout df support_col resistance_col

/-! ## The analysis orchestrator (`analyze_trends`)

The returned dictionaries become structures; a key that a particular
return site omits is an `Option`-typed field set to `none` there. -/

structure TechnicalData where
  break_analysis : String
  current_price : Option ℚ
  trend_line : Option ℚ
  support : Option ℚ
  resistance : Option ℚ
  rsi : Option ℚ
  is_critical : Option Bool
  deriving DecidableEq

structure AnalysisResult where
  technical_data : TechnicalData
  analysis : String
  deriving DecidableEq

/-- The last `n` entries (`l[-n:]`; the whole list when shorter). -/
def lastN {α : Type} (n : Nat) (l : List α) : List α :=
  l.drop (l.length - n)

/-- Python truthiness of a float cell: `NaN` is truthy, `0.0` falsy. -/
def truthy (v : Option ℚ) : Bool :=
  match v with
  | none => true
  | some x => x ≠ 0

/-- Rendering of a float cell inside an f-string; exact decimal formatting
(`:.1f`, `:.2f`) is immaterial to every claim and abstracted by
`toString`, with `NaN` printing as "nan". -/
def fmtOpt (v : Option ℚ) : String :=
  match v with
  | some x => toString x
  | none => "nan"

/-- Embeds `_generate_basic_analysis`: the deterministic templated narrative. -/
def generate_basic_analysis (td : TechnicalData) : String :=
  let rsiLine :=
    match td.rsi with
    | some x =>
      if x ≥ 70 then "RSI (" ++ fmtOpt td.rsi ++ ") 顯示市場處於超買狀態"
      else if x ≤ 30 then "RSI (" ++ fmtOpt td.rsi ++ ") 顯示市場處於超賣狀態"
      else "RSI (" ++ fmtOpt td.rsi ++ ") 處於正常區間"
    | none => "RSI (" ++ fmtOpt td.rsi ++ ") 處於正常區間"
  let base := ["當前趨勢: " ++ td.break_analysis, rsiLine]
  let srLines :=
    if truthy td.support && truthy td.resistance then
      ["支撐位: $" ++ fmtOpt td.support, "阻力位: $" ++ fmtOpt td.resistance]
    else []
  String.intercalate "\n" (base ++ srLines)

/-- The summary of the five most recent entries of the (NaN-dropped)
breakout column: up first, then down, else no clear breakout. -/
def break_analysis_of (tb : List (Option ℚ)) : String :=
  let recent := lastN 5 (tb.filterMap id)
  if recent.any (· = 1) then "最近出現向上突破"
  else if recent.any (· = -1) then "最近出現向下突破"
  else "無明顯突破"

/-- The snapshot returned when the fetch failed (`df is None`).  The dict
literal at this return site carries no `is_critical` key. -/
def unavailable_result : AnalysisResult :=
  { technical_data :=
      { break_analysis := "N/A"
        current_price := none
        trend_line := none
        support := none
        resistance := none
        rsi := none
        is_critical := none }
    analysis := "無法獲取市場數據" }

/-- The snapshot built by the `except` handler of `analyze_trends`; the
interpolated exception text is abstracted to its fixed Chinese template. -/
def error_result : AnalysisResult :=
  { technical_data :=
      { break_analysis := "Error"
        current_price := none
        trend_line := none
        support := none
        resistance := none
        rsi := none
        is_critical := some false }
    analysis := "分析錯誤: " }

/-- Last cell of an option column (`iloc[-1]`, `NaN` as `none`). -/
def lastCell (l : List (Option ℚ)) : Option ℚ :=
  l.getLastD none

/-- Embeds `analyze_trends`.  Its two external calls are parameters: `fetched` is
the value of `get_historical_data` (`none` when that failed) and `aiText`
the narrative generator's reply (`none` when it raised, in which case
`_perform_ai_analysis` falls back to the templated narrative).  On an
empty frame `iloc[-1]` raises `IndexError` and control lands in the
`except` branch. -/
def analyze_trends (fetched : Option (List Candle)) (aiText : Option String) :
    AnalysisResult :=
  match fetched with
  | none => unavailable_result
  | some df =>
    if df.length = 0 then error_result
    else
      let ind := calculate_technical_indicators df
      let current_price := (df.map (·.close)).getLastD 0
      let trend_line_value := lastCell ind.trend_line
      let support := lastCell ind.support
      let resistance := lastCell ind.resistance
      let rsi := lastCell ind.RSI
      let is_critical :=
        is_critical_moment df ind.support ind.resistance current_price
          trend_line_value support resistance rsi
      let td : TechnicalData :=
        { break_analysis := break_analysis_of ind.trend_break
          current_price := some current_price
          trend_line := trend_line_value
          support := support
          resistance := resistance
          rsi := rsi
          is_critical := some is_critical }
      let text :=
        if is_critical then
          match aiText with
          | some t => t
          | none => generate_basic_analysis td
        else generate_basic_analysis td
      { technical_data := td, analysis := text }

/-! ## The series store (`get_historical_data`) -/

inductive FetchErr
  | invalidSymbol (symbol : String)
  | dataUnavailable
  deriving DecidableEq

/-- The request parameters prepared at the top of `get_historical_data`:
`interval = interval or TIMEFRAMES['default']` (Python truthiness: `None`
and the empty string fall back, nothing else is inspected) and
`days = days or ANALYSIS['default_days']`, then the cap at `max_days`. -/
def prepare_request (interval : Option String) (days : Option Int) : String × Int :=
  let i :=
    match interval with
    | none => TIMEFRAMES_default
    | some s => if s = "" then TIMEFRAMES_default else s
  let d :=
    match days with
    | none => ANALYSIS_default_days
    | some d => if d = 0 then ANALYSIS_default_days else d
  (i, if d > ANALYSIS_max_days then ANALYSIS_max_days else d)

/-- Body of the `try` block of `get_historical_data`: parameters are
prepared, the symbol is validated (`raise ValueError` — modelled as
`FetchErr.invalidSymbol`), and only then is the kline request issued.
`network` stands for `binance_client.get_historical_klines` (`none` = the
request raised); the boolean records whether that request was issued. -/
def get_historical_data_core (symbol : String) (interval : Option String)
    (days : Option Int) (network : String × Int → Option (List Candle)) :
    Except FetchErr (List Candle) × Bool :=
  let params := prepare_request interval days
  if is_valid_symbol symbol then
    match network params with
    | some klines => (Except.ok klines, true)
    | none => (Except.error FetchErr.dataUnavailable, true)
  else (Except.error (FetchErr.invalidSymbol symbol), false)

/-- Embeds `get_historical_data` proper: its `except` handler maps every raised
error to `None`. -/
def get_historical_data (symbol : String) (interval : Option String)
    (days : Option Int) (network : String × Int → Option (List Candle)) :
    Option (List Candle) :=
  match (get_historical_data_core symbol interval days network).1 with
  | Except.ok df => some df
  | Except.error _ => none

/-! ## The alert ledger (`main.py`, `CryptoRealtimeAgent.add_alert`) -/

structure Alert where
  message : String
  timestamp : Nat
  id : String
  deriving DecidableEq

structure AgentState where
  alerts : List Alert
  processed_alerts : Finset String

/-- Embeds `add_alert`: skip an id already in the seen set; otherwise append,
record the id, truncate the ledger to its last five entries when longer,
and when the seen set exceeds 1000 ids collapse it to the ids of the
alerts currently retained. -/
def add_alert (s : AgentState) (message : String) (now : Nat) (alert_id : String) :
    AgentState :=
  if alert_id ∈ s.processed_alerts then s
  else
    let alerts1 := s.alerts ++ [⟨message, now, alert_id⟩]
    let processed1 := insert alert_id s.processed_alerts
    let alerts2 := if 5 < alerts1.length then lastN 5 alerts1 else alerts1
    let processed2 :=
      if 1000 < processed1.card then (alerts2.map (·.id)).toFinset else processed1
    { alerts := alerts2, processed_alerts := processed2 }

/-! # Claims -/

/-- C8: an unmonitored symbol makes the fetch fail with the invalid-symbol
error before any kline request is issued — the outcome is the same for
every behaviour of the network, the issued-request flag stays `false`, and
the boundary handler surfaces the failure as `None`. -/
theorem invalid_symbol_before_network (symbol : String)
    (h : symbol ∉ SYMBOLS_TO_MONITOR)
    (interval : Option String) (days : Option Int)
    (network : String × Int → Option (List Candle)) :
    get_historical_data_core symbol interval days network
        = (Except.error (FetchErr.invalidSymbol symbol), false)
      ∧ get_historical_data symbol interval days network = none := by
  have hv : is_valid_symbol symbol = false := by
    simp [is_valid_symbol, h]
  refine ⟨?_, ?_⟩
  · simp [get_historical_data_core, hv]
  · simp [get_historical_data, get_historical_data_core, hv]

/-- C8 witness: the spec's scenario symbol "DOGEUSDT". -/
theorem invalid_symbol_before_network_witness :
    "DOGEUSDT" ∉ SYMBOLS_TO_MONITOR
      ∧ get_historical_data_core "DOGEUSDT" (some "1d") (some 30) (fun _ => some [])
          = (Except.error (FetchErr.invalidSymbol "DOGEUSDT"), false) :=
  ⟨by decide,
   (invalid_symbol_before_network "DOGEUSDT" (by decide) (some "1d") (some 30)
      (fun _ => some [])).1⟩

/-- C7 counterexample: "5x" is not in the allowed interval set, yet the
request is prepared with "5x" — the default is not substituted. -/
theorem interval_not_validated :
    "5x" ∉ TIMEFRAMES_available
      ∧ (prepare_request (some "5x") (some 30)).1 = "5x"
      ∧ (prepare_request (some "5x") (some 30)).1 ≠ TIMEFRAMES_default := by
  refine ⟨by decide, by decide, by decide⟩

/-- C7 (amended): the days argument is clamped to `max_days = 365`; the
interval falls back to the configured default only when it is `None` or
empty (Python falsiness) — any other interval string, inside the allowed
set or not, is passed to the data request unchanged.  (The allowed-set
check lives in `Config.get_timeframe`, which `get_historical_data` never
calls.) -/
theorem prepare_request_spec :
    (∀ interval days, (prepare_request interval days).2 ≤ ANALYSIS_max_days)
      ∧ (∀ days, (prepare_request none days).1 = TIMEFRAMES_default)
      ∧ (∀ days, (prepare_request (some "") days).1 = TIMEFRAMES_default)
      ∧ (∀ s days, s ≠ "" → (prepare_request (some s) days).1 = s) := by
  refine ⟨?_, ?_, ?_, ?_⟩
  · intro interval days
    simp only [prepare_request, ANALYSIS_max_days, ANALYSIS_default_days]
    cases days with
    | none => norm_num
    | some d =>
      by_cases hd : d = 0
      · simp only [hd, if_pos]
        norm_num
      · simp only [hd, if_neg, ite_false]
        split <;> omega
  · intro days; rfl
  · intro days; rfl
  · intro s days hs
    simp [prepare_request, hs]

/-- C7 witness: a 400-day request for a non-empty interval string. -/
theorem prepare_request_spec_witness :
    ("4h" ≠ "") ∧ (prepare_request (some "4h") (some 400)).1 = "4h"
      ∧ (prepare_request (some "4h") (some 400)).2 ≤ ANALYSIS_max_days :=
  ⟨by decide, prepare_request_spec.2.2.2 "4h" (some 400) (by decide),
   prepare_request_spec.1 (some "4h") (some 400)⟩

/-- C3 counterexample: the fetch-failure snapshot carries no
`is_critical` key at all, so it is not the claimed `isCritical = false`. -/
theorem degraded_snapshot_missing_critical_key :
    (analyze_trends none none).technical_data.is_critical ≠ some false := by
  decide

/-- C3 (amended): on a fetch failure `analyze_trends` returns, for every
behaviour of the narrative generator, the fixed degraded snapshot: current
price and every derived field `None`, the `is_critical` key absent from
the dictionary (consumers read it with a `False` default), and the fixed,
non-empty market-data-unavailable narrative.  The function is total — the
fetch failure is never propagated. -/
theorem analyze_trends_degraded (aiText : Option String) :
    (analyze_trends none aiText).technical_data.current_price = none
      ∧ (analyze_trends none aiText).technical_data.trend_line = none
      ∧ (analyze_trends none aiText).technical_data.support = none
      ∧ (analyze_trends none aiText).technical_data.resistance = none
      ∧ (analyze_trends none aiText).technical_data.rsi = none
      ∧ (analyze_trends none aiText).technical_data.is_critical = none
      ∧ (analyze_trends none aiText).technical_data.break_analysis = "N/A"
      ∧ (analyze_trends none aiText).analysis = "無法獲取市場數據"
      ∧ (analyze_trends none aiText).analysis ≠ "" := by
  have h : analyze_trends none aiText = unavailable_result := rfl
  rw [h]
  exact ⟨rfl, rfl, rfl, rfl, rfl, rfl, rfl, rfl, by decide⟩

/-! ### C9: the alert ledger -/

theorem lastN_of_le {α : Type} (n : Nat) (l : List α) (h : l.length ≤ n) :
    lastN n l = l := by
  simp [lastN, Nat.sub_eq_zero_of_le h]

theorem lastN_length {α : Type} (n : Nat) (l : List α) :
    (lastN n l).length = min l.length n := by
  simp [lastN]
  omega

/-- C9: the `add_alert` ledger mechanics.  An id in the seen set leaves
the state untouched (deduplication); a fresh id appends its alert and the
ledger becomes exactly the last five entries, in arrival order, of the
extended list (so it never exceeds five); the id joins the seen set, and
when the seen set then exceeds 1000 entries it collapses to exactly the
ids of the alerts currently retained. -/
theorem add_alert_spec :
    (∀ s m t i, i ∈ s.processed_alerts → add_alert s m t i = s)
      ∧ (∀ s m t i, i ∉ s.processed_alerts →
          (add_alert s m t i).alerts = lastN 5 (s.alerts ++ [⟨m, t, i⟩]))
      ∧ (∀ s m t i, s.alerts.length ≤ 5 → (add_alert s m t i).alerts.length ≤ 5)
      ∧ (∀ s m t i, i ∉ s.processed_alerts →
          1000 < (insert i s.processed_alerts).card →
          (add_alert s m t i).processed_alerts
            = ((add_alert s m t i).alerts.map (·.id)).toFinset)
      ∧ (∀ s m t i, i ∉ s.processed_alerts →
          (insert i s.processed_alerts).card ≤ 1000 →
          (add_alert s m t i).processed_alerts = insert i s.processed_alerts) := by
  refine ⟨?_, ?_, ?_, ?_, ?_⟩
  · intro s m t i h
    simp [add_alert, h]
  · intro s m t i h
    simp only [add_alert, h, if_neg, ite_false]
    split
    · rfl
    · next hlen =>
      exact (lastN_of_le 5 _ (by omega)).symm
  · intro s m t i h
    by_cases hmem : i ∈ s.processed_alerts
    · simp [add_alert, hmem, h]
    · simp only [add_alert, hmem, ite_false]
      split
      · next hlen => simp [lastN_length]
      · next hlen => simp at hlen ⊢; omega
  · intro s m t i h hcard
    simp only [add_alert, h, ite_false]
    rw [if_pos hcard]
  · intro s m t i h hcard
    simp only [add_alert, h, ite_false]
    rw [if_neg (by omega)]

/-- Intermediate state after five distinct alerts (used only to witness
C9's six-distinct-ids scenario). -/
def run5 : AgentState :=
  add_alert (add_alert (add_alert (add_alert (add_alert
    ⟨[], ∅⟩ "m1" 1 "a1") "m2" 2 "a2") "m3" 3 "a3") "m4" 4 "a4") "m5" 5 "a5"

/-- C9 witness: a sixth distinct id leaves exactly the last five alerts,
in arrival order. -/
theorem add_alert_spec_witness :
    "a6" ∉ run5.processed_alerts
      ∧ (add_alert run5 "m6" 6 "a6").alerts
          = [⟨"m2", 2, "a2"⟩, ⟨"m3", 3, "a3"⟩, ⟨"m4", 4, "a4"⟩,
             ⟨"m5", 5, "a5"⟩, ⟨"m6", 6, "a6"⟩] := by
  refine ⟨by decide, ?_⟩
  rw [add_alert_spec.2.1 run5 "m6" 6 "a6" (by decide)]
  decide

/-! ### C4: the fake-breakout check -/

/-- C4: with fewer than three bars the check is false; otherwise it fires
exactly on the up-fake pattern (bar[0].high above the reference
resistance taken three bars back, bar[1].close still above it,
bar[2].close back below) or the symmetric down-fake pattern against the
reference support.  An undefined reference makes its branch false.  The
right-hand side mentions only the last three candles and the two
reference cells — in particular the result does not depend on the per-bar
breakout column. -/
theorem check_fake_breakout_spec :
    (∀ (df : List Candle) (sup res : List (Option ℚ)),
        df.length < 3 → check_fake_breakout df sup res = false)
      ∧ (∀ (df : List Candle) (sup res : List (Option ℚ)), 3 ≤ df.length →
          (check_fake_breakout df sup res = true ↔
            (∃ r, res.getD (df.length - 3) none = some r
              ∧ (df.getD (df.length - 3) default).high > r
              ∧ (df.getD (df.length - 2) default).close > r
              ∧ (df.getD (df.length - 1) default).close < r)
            ∨ (∃ s, sup.getD (df.length - 3) none = some s
              ∧ (df.getD (df.length - 3) default).low < s
              ∧ (df.getD (df.length - 2) default).close < s
              ∧ (df.getD (df.length - 1) default).close > s))) := by
  constructor
  · intro df sup res h
    simp [check_fake_breakout, h]
  · intro df sup res h
    have h3 : ¬ df.length < 3 := by omega
    rw [check_fake_breakout, if_neg h3]
    simp only [List.getD_eq_getElem?_getD]
    cases hres : res[df.length - 3]?.getD none with
    | none =>
      cases hsup : sup[df.length - 3]?.getD none with
      | none => simp [hres, hsup]
      | some s => simp [hres, hsup, and_assoc]
    | some r =>
      cases hsup : sup[df.length - 3]?.getD none with
      | none => simp [hres, hsup, and_assoc]
      | some s => simp [hres, hsup, and_assoc]

/-- Fixture for the C4 witness: three bars whose high pierces the
reference resistance 10 before two closes fall back below it. -/
def fakeDf : List Candle :=
  [⟨11, 9, 10, 1⟩, ⟨12, 10, 11, 1⟩, ⟨10, 8, 9, 1⟩]

def fakeSup : List (Option ℚ) := [none, none, none]

def fakeRes : List (Option ℚ) := [some 10, some 12, some 12]

/-- C4 witness: the spec's scenario — a high breaking resistance followed
by a close back below it flags a fake breakout. -/
theorem check_fake_breakout_spec_witness :
    check_fake_breakout fakeDf fakeSup fakeRes = true :=
  (check_fake_breakout_spec.2 fakeDf fakeSup fakeRes (by decide)).mpr
    (Or.inl ⟨10, by decide, by decide, by decide, by decide⟩)

/-! ### C1: the criticality classifier -/

theorem trend_break_clause_iff (cp : ℚ) (tl : Option ℚ) :
    trend_break_clause cp tl = true ↔
      ∃ t, tl = some t ∧ t ≠ 0 ∧ |cp - t| / t > breakout_threshold := by
  cases tl with
  | none => simp [trend_break_clause]
  | some t => by_cases ht : t = 0 <;> simp [trend_break_clause, ht]

theorem support_resistance_clause_iff (cp : ℚ) (sup res : Option ℚ) :
    support_resistance_clause cp sup res = true ↔
      ∃ s r, sup = some s ∧ res = some r ∧ s ≠ 0 ∧ r ≠ 0
        ∧ (|cp - s| < (r - s) * (2 / 100) ∨ |cp - r| < (r - s) * (2 / 100)) := by
  cases sup with
  | none => simp [support_resistance_clause]
  | some s =>
    cases res with
    | none => simp [support_resistance_clause]
    | some r =>
      by_cases hs : s = 0
      · simp [support_resistance_clause, hs]
      · by_cases hr : r = 0 <;>
          simp [support_resistance_clause, hs, hr, and_assoc]

theorem rsi_extreme_clause_iff (rsi : Option ℚ) :
    rsi_extreme_clause rsi = true ↔ ∃ x, rsi = some x ∧ (70 ≤ x ∨ x ≤ 30) := by
  cases rsi <;> simp [rsi_extreme_clause]

theorem volume_spike_clause_iff (volumes : List ℚ) :
    volume_spike_clause volumes = true ↔
      ∃ current avg, volumes.getLast? = some current
        ∧ (rollingMean 20 volumes).getLast? = some (some avg)
        ∧ current > avg * 2 := by
  cases hcur : volumes.getLast? with
  | none => simp [volume_spike_clause, hcur]
  | some current =>
    cases havg : (rollingMean 20 volumes).getLast? with
    | none => simp [volume_spike_clause, hcur, havg]
    | some o =>
      cases o with
      | none => simp [volume_spike_clause, hcur, havg]
      | some avg => simp [volume_spike_clause, hcur, havg]

/-- The 20-bar volume average is still `NaN` when fewer than 20 bars
exist, so the volume clause is false. -/
theorem volume_spike_clause_short (volumes : List ℚ) (h : volumes.length < 20) :
    volume_spike_clause volumes = false := by
  cases hv : volumes with
  | nil => simp [volume_spike_clause]
  | cons a t =>
    rw [volume_spike_clause.eq_def]
    have hne : volumes ≠ [] := by rw [hv]; simp
    rw [← hv]
    cases hcur : volumes.getLast? with
    | none => rfl
    | some current =>
      have hlen : (rollingMean 20 volumes).length = volumes.length := by
        simp [rollingMean, rollingApply_length]
      have hpos : 0 < volumes.length := by rw [hv]; simp
      have hidx : volumes.length - 1 < (rollingMean 20 volumes).length := by omega
      have hlast : (rollingMean 20 volumes).getLast? = some none := by
        rw [List.getLast?_eq_getElem?]
        rw [hlen]
        rw [show (rollingMean 20 volumes) = rollingApply 20 (windowMean 20) volumes from rfl]
        rw [rollingApply_getElem 20 (windowMean 20) volumes (volumes.length - 1) (by omega)]
        rw [if_neg (by omega)]
      rw [hlast]

/-- C1: the critical-moment verdict is exactly the disjunction of the five
clauses, spelled out from the source; a clause whose input is undefined is
false rather than raising (the classifier is total); and forcing the RSI
clause true with a value of 71 while the four other clauses are false
still yields a critical verdict. -/
theorem is_critical_moment_spec :
    (∀ df scol rcol cp tl sup res rsi,
        is_critical_moment df scol rcol cp tl sup res rsi = true ↔
          ((∃ t, tl = some t ∧ t ≠ 0 ∧ |cp - t| / t > breakout_threshold)
            ∨ (∃ s r, sup = some s ∧ res = some r ∧ s ≠ 0 ∧ r ≠ 0
                ∧ (|cp - s| < (r - s) * (2 / 100) ∨ |cp - r| < (r - s) * (2 / 100)))
            ∨ (∃ x, rsi = some x ∧ (70 ≤ x ∨ x ≤ 30))
            ∨ (∃ current avg, (df.map (·.volume)).getLast? = some current
                ∧ (rollingMean 20 (df.map (·.volume))).getLast? = some (some avg)
                ∧ current > avg * 2)
            ∨ check_fake_breakout df scol rcol = true))
      ∧ (∀ cp, trend_break_clause cp none = false)
      ∧ (∀ cp r, support_resistance_clause cp none r = false)
      ∧ (∀ cp s, support_resistance_clause cp s none = false)
      ∧ rsi_extreme_clause none = false
      ∧ (∀ volumes : List ℚ, volumes.length < 20 → volume_spike_clause volumes = false)
      ∧ (∀ df scol rcol cp tl sup res,
          trend_break_clause cp tl = false →
          support_resistance_clause cp sup res = false →
          volume_spike_clause (df.map (·.volume)) = false →
          check_fake_breakout df scol rcol = false →
          is_critical_moment df scol rcol cp tl sup res (some 71) = true) := by
  refine ⟨?_, ?_, ?_, ?_, ?_, ?_, ?_⟩
  · intro df scol rcol cp tl sup res rsi
    simp only [is_critical_moment, Bool.or_eq_true, trend_break_clause_iff,
      support_resistance_clause_iff, rsi_extreme_clause_iff, volume_spike_clause_iff,
      or_assoc]
  · intro cp; rfl
  · intro cp r; rfl
  · intro cp s; cases s <;> rfl
  · rfl
  · exact volume_spike_clause_short
  · intro df scol rcol cp tl sup res h1 h2 h4 h5
    simp [is_critical_moment, h1, h2, h4, h5, rsi_extreme_clause]
    norm_num

/-- C1 witness: an empty frame with all other inputs undefined and RSI
forced to 71 is critical. -/
theorem is_critical_moment_spec_witness :
    is_critical_moment [] [] [] 100 none none none (some 71) = true :=
  is_critical_moment_spec.2.2.2.2.2.2 [] [] [] 100 none none none
    (by decide) (by decide) (by decide) (by decide)

/-! ### C2: the breakout event -/

theorem detect_trend_breaks_getD (close : List ℚ) (support resistance : List (Option ℚ))
    (t : Nat) (ht : t < close.length) :
    (detect_trend_breaks close support resistance).getD t none =
      (if down_break close support t then some (-1)
       else if up_break close resistance t then some 1 else none) := by
  simp [detect_trend_breaks, List.getD_eq_getElem?_getD, List.getElem?_map,
    List.getElem?_range, ht]

theorem up_break_iff (close : List ℚ) (resistance : List (Option ℚ)) (t : Nat)
    (ht : 1 ≤ t) (r : ℚ) (hr : resistance.getD (t - 1) none = some r) :
    up_break close resistance t = true ↔
      close.getD t 0 > r * (1 + breakout_threshold) ∧ close.getD (t - 1) 0 ≤ r := by
  cases t with
  | zero => omega
  | succ t' =>
    rw [Nat.succ_sub_one] at hr ⊢
    rw [up_break, hr]
    simp [and_comm]

theorem down_break_iff (close : List ℚ) (support : List (Option ℚ)) (t : Nat)
    (ht : 1 ≤ t) (s : ℚ) (hs : support.getD (t - 1) none = some s) :
    down_break close support t = true ↔
      close.getD t 0 < s * (1 - breakout_threshold) ∧ close.getD (t - 1) 0 ≥ s := by
  cases t with
  | zero => omega
  | succ t' =>
    rw [Nat.succ_sub_one] at hs ⊢
    rw [down_break, hs]
    simp [and_comm]

/-- C2: at a timestamp where the current and one-step-prior
support/resistance are all defined — and with the positivity of the
support level that the data model's positive prices guarantee — the
breakout cell is `1` (Up) exactly on the up-break condition, `-1` (Down)
exactly on the down-break condition, the two conditions are mutually
exclusive (a timestamp is never both), and had both held the cell would
be Up. -/
theorem detect_trend_breaks_spec (close : List ℚ) (support resistance : List (Option ℚ))
    (t : Nat) (ht : 1 ≤ t) (htl : t < close.length)
    (sc rc s r : ℚ)
    (_hsc : support.getD t none = some sc)
    (_hrc : resistance.getD t none = some rc)
    (hs : support.getD (t - 1) none = some s)
    (hr : resistance.getD (t - 1) none = some r)
    (hspos : 0 < s) :
    ((detect_trend_breaks close support resistance).getD t none = some 1 ↔
        close.getD t 0 > r * (1 + breakout_threshold) ∧ close.getD (t - 1) 0 ≤ r)
      ∧ ((detect_trend_breaks close support resistance).getD t none = some (-1) ↔
        close.getD t 0 < s * (1 - breakout_threshold) ∧ close.getD (t - 1) 0 ≥ s)
      ∧ ¬((close.getD t 0 > r * (1 + breakout_threshold) ∧ close.getD (t - 1) 0 ≤ r)
          ∧ (close.getD t 0 < s * (1 - breakout_threshold) ∧ close.getD (t - 1) 0 ≥ s))
      ∧ (((close.getD t 0 > r * (1 + breakout_threshold) ∧ close.getD (t - 1) 0 ≤ r)
          ∧ (close.getD t 0 < s * (1 - breakout_threshold) ∧ close.getD (t - 1) 0 ≥ s)) →
        (detect_trend_breaks close support resistance).getD t none = some 1) := by
  have hup := up_break_iff close resistance t ht r hr
  have hdown := down_break_iff close support t ht s hs
  have hexcl : ¬((close.getD t 0 > r * (1 + breakout_threshold)
        ∧ close.getD (t - 1) 0 ≤ r)
      ∧ (close.getD t 0 < s * (1 - breakout_threshold)
        ∧ close.getD (t - 1) 0 ≥ s)) := by
    rintro ⟨⟨h1, h2⟩, ⟨h3, h4⟩⟩
    have hsr : s ≤ r := le_trans h4 h2
    rw [breakout_threshold] at h1 h3
    nlinarith [h1, h3, hsr, hspos]
  rw [detect_trend_breaks_getD close support resistance t htl]
  refine ⟨?_, ?_, hexcl, fun hc => absurd hc hexcl⟩
  · constructor
    · intro he
      by_cases hd : down_break close support t = true
      · rw [if_pos hd] at he
        exact absurd (Option.some.inj he) (by norm_num)
      · rw [if_neg hd] at he
        by_cases hu : up_break close resistance t = true
        · exact hup.mp hu
        · rw [if_neg hu] at he
          cases he
    · intro hcond
      have hu : up_break close resistance t = true := hup.mpr hcond
      have hd : ¬ (down_break close support t = true) :=
        fun hdd => hexcl ⟨hcond, hdown.mp hdd⟩
      rw [if_neg hd, if_pos hu]
  · constructor
    · intro he
      by_cases hd : down_break close support t = true
      · exact hdown.mp hd
      · rw [if_neg hd] at he
        by_cases hu : up_break close resistance t = true
        · rw [if_pos hu] at he
          exact absurd (Option.some.inj he) (by norm_num)
        · rw [if_neg hu] at he
          cases he
    · intro hcond
      rw [if_pos (hdown.mpr hcond)]

/-- C2 witness: a clean up-break with everything defined. -/
theorem detect_trend_breaks_spec_witness :
    (detect_trend_breaks [10, 20] [some 9, some 9] [some 12, some 13]).getD 1 none
      = some 1 :=
  (detect_trend_breaks_spec [10, 20] [some 9, some 9] [some 12, some 13] 1
    (by decide) (by decide) 9 13 9 12 (by decide) (by decide) (by decide) (by decide)
    (by decide)).1.mpr
    (by norm_num [List.getD_cons_succ, List.getD_cons_zero, breakout_threshold])

/-! ### C5: the RSI -/

theorem gains_nonneg (xs : List ℚ) : ∀ g ∈ gains xs, 0 ≤ g := by
  intro g hg
  rw [gains] at hg
  obtain ⟨d, _, hdef⟩ := List.mem_map.mp hg
  subst hdef
  cases d with
  | none => norm_num
  | some v =>
    dsimp only
    split
    · linarith
    · norm_num

theorem losses_nonneg (xs : List ℚ) : ∀ l ∈ losses xs, 0 ≤ l := by
  intro l hl
  rw [losses] at hl
  obtain ⟨d, _, hdef⟩ := List.mem_map.mp hl
  subst hdef
  cases d with
  | none => norm_num
  | some v =>
    dsimp only
    split
    · linarith
    · norm_num

theorem rollingMean_nonneg (p : Nat) (xs : List ℚ) (hxs : ∀ x ∈ xs, 0 ≤ x)
    (i : Nat) (v : ℚ) (h : (rollingMean p xs)[i]? = some (some v)) : 0 ≤ v := by
  have hi : i < xs.length := by
    by_contra hcon
    push_neg at hcon
    have hlen : (rollingMean p xs).length ≤ i := by
      simpa [rollingMean, rollingApply_length] using hcon
    rw [List.getElem?_eq_none hlen] at h
    cases h
  rw [rollingMean, rollingApply_getElem _ _ _ i hi] at h
  by_cases hp : p ≤ i + 1
  · rw [if_pos hp] at h
    have hv := Option.some.inj (Option.some.inj h)
    rw [← hv, windowMean]
    apply div_nonneg
    · exact List.sum_nonneg fun x hx => hxs x (windowEnd_sublist _ _ _ _ hx)
    · exact Nat.cast_nonneg p
  · rw [if_neg hp] at h
    cases Option.some.inj h

theorem rsiOfAvg_bounds (g l v : ℚ) (hg : 0 ≤ g) (hl : 0 ≤ l)
    (h : rsiOfAvg g l = some v) : 0 ≤ v ∧ v ≤ 100 := by
  rw [rsiOfAvg] at h
  by_cases hl0 : l = 0
  · rw [if_pos hl0] at h
    by_cases hg0 : g = 0
    · rw [if_pos hg0] at h
      cases h
    · rw [if_neg hg0] at h
      have hv := Option.some.inj h
      rw [← hv]
      norm_num
  · rw [if_neg hl0] at h
    have hv := Option.some.inj h
    have hlpos : 0 < l := lt_of_le_of_ne hl (Ne.symm hl0)
    have hratio : 0 ≤ g / l := div_nonneg hg hl
    have hden : (1 : ℚ) ≤ 1 + g / l := by linarith
    have hfrac_pos : 0 < 100 / (1 + g / l) := div_pos (by norm_num) (by linarith)
    have hfrac_le : 100 / (1 + g / l) ≤ 100 := div_le_self (by norm_num) hden
    rw [← hv]
    constructor <;> linarith

/-- C5 (amended): the RSI column is the simple rolling-average embodiment
of `RSI = 100 - 100/(1+RS)`, and every *defined* value it contains lies in
`[0, 100]`; the `avgLoss = 0` boundary is not an explicit clamp but the
float evaluation of the same formula, which yields exactly `100` when
`avgGain > 0` and an undefined (`NaN`) value when the window moved not at
all (`avgGain = 0` too). -/
theorem rsi_spec :
    (∀ (closes : List ℚ) (i : Nat) (v : ℚ),
        (rsi_series closes)[i]? = some (some v) → 0 ≤ v ∧ v ≤ 100)
      ∧ (∀ g : ℚ, 0 < g → rsiOfAvg g 0 = some 100)
      ∧ rsiOfAvg 0 0 = none := by
  refine ⟨?_, ?_, rfl⟩
  · intro closes i v h
    rw [rsi_series] at h
    obtain ⟨g?, l?, hg?, hl?, hfv⟩ := List.getElem?_zipWith_eq_some.mp h
    cases g? with
    | none => cases hfv
    | some g =>
      cases l? with
      | none => cases hfv
      | some l =>
        have hg : 0 ≤ g :=
          rollingMean_nonneg RSI_period (gains closes) (gains_nonneg closes) i g hg?
        have hl : 0 ≤ l :=
          rollingMean_nonneg RSI_period (losses closes) (losses_nonneg closes) i l hl?
        exact rsiOfAvg_bounds g l v hg hl hfv
  · intro g hg
    rw [rsiOfAvg, if_pos rfl, if_neg (by linarith)]

/-- Fixture: fifteen alternating closes; at the last bar the 14-bar
average gain and average loss are both 1/2, so the RSI is 50. -/
def altCloses : List ℚ :=
  [100, 101, 100, 101, 100, 101, 100, 101, 100, 101, 100, 101, 100, 101, 100]

/-- C5 witness: a concrete defined RSI value, certified to stay within
the bounds by the theorem. -/
theorem rsi_spec_witness :
    (rsi_series altCloses)[14]? = some (some 50)
      ∧ (0 ≤ (50 : ℚ) ∧ (50 : ℚ) ≤ 100) :=
  ⟨by norm_num [rsi_series, rollingMean, rollingApply, windowEnd, windowMean,
      gains, losses, diffs, rsiOfAvg, RSI_period, altCloses, List.range_succ],
   rsi_spec.1 altCloses 14 50
    (by norm_num [rsi_series, rollingMean, rollingApply, windowEnd, windowMean,
      gains, losses, diffs, rsiOfAvg, RSI_period, altCloses, List.range_succ])⟩

/-- C5 counterexample: a flat series has zero average gain *and* loss, so
`rs = 0/0` is `NaN` and the last RSI cell is undefined — not the claimed
explicit clamp to 100. -/
theorem rsi_flat_series_nan :
    (rollingMean RSI_period (losses (List.replicate 15 (100 : ℚ)))).getLastD none
        = some 0
      ∧ (rsi_series (List.replicate 15 (100 : ℚ))).getLastD none = none
      ∧ (rsi_series (List.replicate 15 (100 : ℚ))).getLastD none ≠ some 100 := by
  norm_num [rsi_series, rollingMean, rollingApply, windowEnd, windowMean,
    gains, losses, diffs, rsiOfAvg, RSI_period, List.range_succ,
    List.replicate_succ]
  simp

/-! ### C6: the alignment invariant -/

theorem diffs_length (xs : List ℚ) : (diffs xs).length = xs.length := by
  cases xs with
  | nil => rfl
  | cons a t =>
    simp [diffs]

theorem gains_length (xs : List ℚ) : (gains xs).length = xs.length := by
  simp [gains, diffs_length]

theorem losses_length (xs : List ℚ) : (losses xs).length = xs.length := by
  simp [losses, diffs_length]

theorem rsi_series_length (xs : List ℚ) : (rsi_series xs).length = xs.length := by
  simp [rsi_series, rollingMean, rollingApply_length, gains_length, losses_length]

theorem calculate_trend_line_length (xs : List ℚ) :
    (calculate_trend_line xs).length = xs.length := by
  rw [calculate_trend_line]
  split
  · simp
  · rw [List.length_map, List.length_range]

theorem zipOption_length (f : ℚ → ℚ → ℚ) (a b : List (Option ℚ)) :
    (zipOption f a b).length = min a.length b.length := by
  simp [zipOption]

theorem detect_trend_breaks_length (close : List ℚ) (sup res : List (Option ℚ)) :
    (detect_trend_breaks close sup res).length = close.length := by
  simp [detect_trend_breaks]

/-- Length of the leading undefined run of a derived column. -/
def leadingNoneCount : List (Option ℚ) → Nat
  | [] => 0
  | none :: t => leadingNoneCount t + 1
  | some _ :: _ => 0

/-- C6 (amended): every derived column of the indicator frame has exactly
the length of the source series.  A period-`p` rolling statistic is
undefined at an in-range index `i` exactly when `i + 1 < p`, so its
leading undefined run is `min(length, p - 1)` — equal to `p - 1` only
once the series has at least `p - 1` rows.  A defined RSI cell likewise
requires `i ≥ RSI_period - 1`, though (unlike the plain rolling
statistics) RSI can stay undefined beyond that boundary when a whole
window is flat; the trend-line and breakout columns are not period-`p`
rolling statistics. -/
theorem indicator_alignment :
    (∀ df : List Candle,
        (∀ l ∈ (calculate_technical_indicators df).ma, l.length = df.length)
        ∧ (calculate_technical_indicators df).trend_line.length = df.length
        ∧ (calculate_technical_indicators df).support.length = df.length
        ∧ (calculate_technical_indicators df).resistance.length = df.length
        ∧ (calculate_technical_indicators df).BB_middle.length = df.length
        ∧ (calculate_technical_indicators df).BB_upper.length = df.length
        ∧ (calculate_technical_indicators df).BB_lower.length = df.length
        ∧ (calculate_technical_indicators df).RSI.length = df.length
        ∧ (calculate_technical_indicators df).trend_break.length = df.length)
      ∧ (∀ (α : Type) (p : Nat) (f : List α → ℚ) (xs : List α) (i : Nat),
          i < xs.length →
          ((rollingApply p f xs)[i]? = some none ↔ i + 1 < p))
      ∧ (∀ (df : List Candle) (i : Nat) (v : ℚ),
          ((calculate_technical_indicators df).RSI)[i]? = some (some v) →
          RSI_period - 1 ≤ i) := by
  refine ⟨?_, ?_, ?_⟩
  · intro df
    refine ⟨?_, ?_, ?_, ?_, ?_, ?_, ?_, ?_, ?_⟩
    · intro l hl
      obtain ⟨p, _, hp⟩ := List.mem_map.mp hl
      rw [← hp]
      simp [rollingMean, rollingApply_length]
    · simp [calculate_technical_indicators, calculate_trend_line_length]
    · simp [calculate_technical_indicators, calculate_support_resistance,
        rollingMin, rollingApply_length]
    · simp [calculate_technical_indicators, calculate_support_resistance,
        rollingMax, rollingApply_length]
    · simp [calculate_technical_indicators, rollingMean, rollingApply_length]
    · simp [calculate_technical_indicators, zipOption_length, rollingMean,
        rollingVar, rollingApply_length]
    · simp [calculate_technical_indicators, zipOption_length, rollingMean,
        rollingVar, rollingApply_length]
    · simp [calculate_technical_indicators, rsi_series_length]
    · simp [calculate_technical_indicators, detect_trend_breaks_length]
  · intro α p f xs i hi
    rw [rollingApply_getElem _ _ _ i hi]
    by_cases hp : p ≤ i + 1
    · rw [if_pos hp]
      constructor
      · intro h
        cases Option.some.inj h
      · omega
    · rw [if_neg hp]
      constructor
      · intro _
        omega
      · intro _
        rfl
  · intro df i v h
    have h' : (rsi_series (df.map (·.close)))[i]? = some (some v) := h
    rw [rsi_series] at h'
    obtain ⟨g?, l?, hg?, hl?, hfv⟩ := List.getElem?_zipWith_eq_some.mp h'
    cases g? with
    | none => cases hfv
    | some g =>
      cases l? with
      | none => cases hfv
      | some l =>
        have hi : i < (gains (df.map (·.close))).length := by
          by_contra hcon
          push_neg at hcon
          rw [List.getElem?_eq_none
            (by simpa [rollingMean, rollingApply_length] using hcon)] at hg?
          cases hg?
        rw [rollingMean, rollingApply_getElem _ _ _ i hi] at hg?
        by_cases hp : RSI_period ≤ i + 1
        · omega
        · rw [if_neg hp] at hg?
          cases Option.some.inj hg?

/-- C6 counterexample: a single-candle frame — the period-5 moving
average column has a leading undefined run of length 1, not the claimed
`5 - 1 = 4`. -/
theorem alignment_short_series :
    leadingNoneCount ((calculate_technical_indicators [⟨100, 90, 95, 1⟩]).ma.getD 0 [])
        = 1
      ∧ (1 : Nat) ≠ 5 - 1 := by
  exact ⟨rfl, by decide⟩

set_option maxRecDepth 8000 in
/-- C10 witness: twenty identical candles with low 1 and high 2 — both
bounds are defined at the twentieth bar and ordered. -/
theorem support_le_resistance_witness :
    (∀ c ∈ List.replicate 20 (⟨2, 1, 1, 1⟩ : Candle), c.low ≤ c.high)
      ∧ (1 : ℚ) ≤ 2 :=
  ⟨by decide,
   support_le_resistance (List.replicate 20 ⟨2, 1, 1, 1⟩) (by decide) 19 1 2
    (by decide) (by decide)⟩

/-- C6 witness: an in-range index with an unfilled window is undefined,
and a moving-average column of the frame has the source's length. -/
theorem indicator_alignment_witness :
    (rollingApply 5 (windowMean 5) [(1 : ℚ), 2, 3, 4, 5, 6])[2]? = some none
      ∧ (rollingMean 5 (([⟨100, 90, 95, 1⟩] : List Candle).map (·.close))).length
          = 1 :=
  ⟨(indicator_alignment.2.1 ℚ 5 (windowMean 5) [1, 2, 3, 4, 5, 6] 2 (by decide)).mpr
      (by decide),
   (indicator_alignment.1 [⟨100, 90, 95, 1⟩]).1 _
      (List.mem_map_of_mem _ (by decide : (5 : Nat) ∈ MA_periods))⟩

end CoinAnalysis
